import Mathlib

/-!
Verification development for the `chatter` incident-response chatbot backend.

The Lean definitions below are a shallow embedding of the Python sources:

* `src/backend/conversation_flow.py` — the `ConversationFlow` dialogue state
  machine (sessions, transition handlers, replies);
* `src/backend/main.py` — the conversation memory store
  (`add_to_conversation`), the `IncidentAnalyzer` (monitoring-bundle
  fan-in `query_recent_changes` and `analyze_correlation`), and the
  `/chat` endpoint routing logic (`chat_endpoint`).

Modelling conventions:

* Python dicts keyed by conversation id are modelled as total functions
  `String → _` whose value at an unseen key is the freshly-created default
  (the lazy creation in `get_conversation_state` is observationally the
  same as a total function with that default).
* Python `None` becomes `Option.none`; truthiness of an optional string
  (`if state.get("customer"):`) is `truthy` below (present and nonempty).
* The randomised external text resources (`load_exclamation`,
  `load_joke`) and the external monitoring/LLM calls are parameters of
  the embedded functions.
* Fallible code is embedded in `Except String`; an uncaught Python
  exception reaching the endpoint boundary is the `.error` case.
* `datetime.fromisoformat` applied to the record timestamps is modelled
  by `fromisoformat` below: it validates the fixed-width
  `YYYY-MM-DDTHH:MM:SS+HH:MM` shape (after the `"Z" → "+00:00"`
  replacement) and returns the string itself as the time point; the
  comparison of two parsed datetimes is modelled by lexicographic string
  comparison, which agrees with chronological order for equal-offset
  fixed-width ISO-8601 strings such as the ones the sources produce.
-/

set_option maxRecDepth 100000

namespace Chatter

/-- Python substring containment `needle in haystack`. -/
def strContains (hay needle : String) : Bool :=
  decide (needle.toList <:+: hay.toList)

/-- Python `str.lower()` (ASCII case folding, which covers every input
the sources produce). -/
def pyLower (s : String) : String :=
  String.mk (s.data.map Char.toLower)

/-- Python `str.strip()`: whitespace removed from both ends. -/
def pyStrip (s : String) : String :=
  String.mk (((s.data.dropWhile Char.isWhitespace).reverse.dropWhile Char.isWhitespace).reverse)

/-- Truthiness of an optional string field, as in `if state.get("customer"):`
(`None` and the empty string are falsy). -/
def truthy : Option String → Bool
  | none => false
  | some s => s != ""

/-! ## conversation_flow.py : sessions -/

/-- The per-conversation state dict created by
`ConversationFlow.get_conversation_state`. -/
structure Session where
  step : String
  wherami : Option String
  state : Option String
  issue_type : Option String
  customer : Option String
  environment : Option String
  performance_details : Option String
  completed_steps : List String
deriving DecidableEq, Repr

/-- The default session dict installed on first access to an unseen
conversation id. -/
def freshSession : Session :=
  { step := "welcome"
    wherami := none
    state := none
    issue_type := none
    customer := none
    environment := none
    performance_details := none
    completed_steps := [] }

/-- A partial-field update, i.e. the `updates` dict passed to
`ConversationFlow.update_conversation_state`; `none` means the field is
not named in the update. -/
structure SessionUpdate where
  step : Option String := none
  wherami : Option String := none
  state : Option String := none
  issue_type : Option String := none
  customer : Option String := none
  environment : Option String := none
  performance_details : Option String := none
  completed_steps : Option (List String) := none
deriving Repr

/-- An optional-string field after an update: the handlers only ever
write concrete strings, so a named field becomes `some v`. -/
def setField (u old : Option String) : Option String :=
  match u with
  | some v => some v
  | none => old

/-- Python `dict.update`: fields named in the update are overwritten,
the rest keep their previous value. -/
def applyUpdate (s : Session) (u : SessionUpdate) : Session :=
  { step := u.step.getD s.step
    wherami := setField u.wherami s.wherami
    state := setField u.state s.state
    issue_type := setField u.issue_type s.issue_type
    customer := setField u.customer s.customer
    environment := setField u.environment s.environment
    performance_details := setField u.performance_details s.performance_details
    completed_steps := u.completed_steps.getD s.completed_steps }

/-- `ConversationFlow.conversations`, the dict of sessions keyed by
conversation id, as a total function (unseen id ↦ fresh session). -/
def FlowStore := String → Session

/-- `ConversationFlow.get_conversation_state`. -/
def getConversationState (st : FlowStore) (cid : String) : Session := st cid

/-- `ConversationFlow.update_conversation_state`. -/
def updateConversationState (st : FlowStore) (cid : String) (u : SessionUpdate) :
    FlowStore :=
  fun j => if j = cid then applyUpdate (st j) u else st j

/-- The store in which every conversation id is at its fresh default state. -/
def emptyFlowStore : FlowStore := fun _ => freshSession

/-! ## conversation_flow.py : replies -/

/-- The reply dict returned by the flow handlers.  `focus` is `none` when
the Python dict has no "focus" key. -/
structure Reply where
  response : String
  suggestions : List String
  use_traditional_flow : Bool
  focus : Option String := none
deriving DecidableEq, Repr

/-- `ConversationFlow._get_help_type_question`. -/
def getHelpTypeQuestion : Reply :=
  { response := "What can I help you with today:\n\n1. A specific customer\n2. A specific environment\n3. A generic performance issue\n4. Lunch"
    suggestions := ["1. Customer", "2. Environment", "3. Performance", "4. Lunch"]
    use_traditional_flow := false }

/-- `ConversationFlow._handle_welcome` (receives the lowered, stripped
message). -/
def handleWelcome (st : FlowStore) (cid msg : String) : FlowStore × Reply :=
  if strContains msg "amer" then
    (updateConversationState st cid { wherami := some "AMER", step := some "ask_state" },
     { response := "Great! Which state?"
       suggestions := ["California", "Texas", "New York", "Florida", "Other"]
       use_traditional_flow := false })
  else if strContains msg "emea" then
    (updateConversationState st cid { wherami := some "EMEA", step := some "ask_help_type" },
     getHelpTypeQuestion)
  else
    (st,
     { response := "I didn\x27t catch that! Please let me know - are you writing in from AMER or EMEA?"
       suggestions := ["AMER", "EMEA"]
       use_traditional_flow := false })

/-- `ConversationFlow._start_initial_response_process`; `excl` and `joke`
model the random text resources returned by `load_exclamation` and
`load_joke`. -/
def startInitialResponseProcess (excl joke : String) (st : FlowStore) (cid : String) :
    FlowStore × Reply :=
  let s := getConversationState st cid
  let response := "My team says \x27It\x27s definitely not a database issue... but let me 2x check.\x27\n\n"
    ++ excl ++ ". Your monitoring guys are good... there is a ton of data to check... it will take a bit. Here is a Dad joke while you wait:\n\n"
    ++ joke ++ "\n\n"
  let response :=
    if s.wherami == some "AMER" && truthy s.state then
      response ++ "Staying PRODUCTIVE means you should keep energized with some sustenance. Try checking out one of these R365 customer locations: http://10.10.4.6/dashboards/food/main.html?state="
        ++ s.state.getD "" ++ "&top3"
    else if s.wherami == some "EMEA" then
      response ++ "Oh. R365 does not have many customer locations in EMEA...yet. :)"
    else response
  (st,
   { response := response
     suggestions := ["Continue with analysis", "Ask more questions", "Start over"]
     use_traditional_flow := false })

/-- `ConversationFlow._start_lunch_process`. -/
def startLunchProcess (st : FlowStore) (cid : String) : FlowStore × Reply :=
  let s := getConversationState st cid
  let response :=
    if truthy s.state then
      "I am not fantastic with geography yet, so cannot narrow down a list to something close by. BUT.. here are all known R365 customer locations in: ["
        ++ s.state.getD "" ++ "](http://10.10.4.6/dashboards/food/main.html?state=" ++ s.state.getD "" ++ ")"
    else
      "I am not fantastic with geography yet, so cannot narrow down a list to something close by. BUT.. here are all known R365 customer locations (please specify your state for better results)."
  (st,
   { response := response
     suggestions := ["Show all locations", "Start over"]
     use_traditional_flow := false })

/-- `ConversationFlow._handle_state_question` (receives the raw message). -/
def handleStateQuestion (st : FlowStore) (cid msg : String) : FlowStore × Reply :=
  (updateConversationState st cid { state := some msg, step := some "ask_help_type" },
   getHelpTypeQuestion)

/-- The else-branch reply of `_handle_help_type`: the menu repeated after
an unrecognised choice. -/
def helpTypeRepeatReply : Reply :=
  { response := "I didn\x27t understand that. Please choose from the options:\n\n1. A specific customer\n2. A specific environment\n3. A generic performance issue\n4. Lunch"
    suggestions := ["1. Customer", "2. Environment", "3. Performance", "4. Lunch"]
    use_traditional_flow := false }

/-- `ConversationFlow._handle_help_type` (receives the lowered, stripped
message). -/
def handleHelpType (st : FlowStore) (cid msg : String) : FlowStore × Reply :=
  if strContains msg "1" || strContains msg "customer" then
    (updateConversationState st cid { issue_type := some "customer", step := some "ask_customer" },
     { response := "Which customer?", suggestions := [], use_traditional_flow := false })
  else if strContains msg "2" || strContains msg "environment" then
    (updateConversationState st cid { issue_type := some "environment", step := some "ask_environment" },
     { response := "Which environment?"
       suggestions := ["Production", "Staging", "Development", "QA"]
       use_traditional_flow := false })
  else if strContains msg "3" || strContains msg "performance" then
    (updateConversationState st cid { issue_type := some "performance", step := some "ask_performance" },
     { response := "Tell me more...", suggestions := [], use_traditional_flow := false })
  else if strContains msg "4" || strContains msg "lunch" then
    let st := updateConversationState st cid { issue_type := some "lunch", step := some "lunch_process" }
    startLunchProcess st cid
  else
    (st, helpTypeRepeatReply)

/-- `ConversationFlow._handle_customer` (receives the raw message). -/
def handleCustomer (excl joke : String) (st : FlowStore) (cid msg : String) :
    FlowStore × Reply :=
  let st := updateConversationState st cid { customer := some msg, step := some "customer_process" }
  startInitialResponseProcess excl joke st cid

/-- `ConversationFlow._handle_environment` (receives the raw message). -/
def handleEnvironment (excl joke : String) (st : FlowStore) (cid msg : String) :
    FlowStore × Reply :=
  let st := updateConversationState st cid { environment := some msg, step := some "env_process" }
  startInitialResponseProcess excl joke st cid

/-- `ConversationFlow._handle_performance` (receives the raw message). -/
def handlePerformance (excl joke : String) (st : FlowStore) (cid msg : String) :
    FlowStore × Reply :=
  let st := updateConversationState st cid { performance_details := some msg, step := some "performance_process" }
  startInitialResponseProcess excl joke st cid

/-- `ConversationFlow._handle_detailed_process` (receives the lowered,
stripped message and the current step as `process_type`). -/
def handleDetailedProcess (st : FlowStore) (cid _msg processType : String) :
    FlowStore × Reply :=
  let s := getConversationState st cid
  if processType == "customer_process" && truthy s.customer then
    (st,
     { response := "Looking for specific information about customer \x27" ++ s.customer.getD ""
         ++ "\x27 in our monitoring data. Let me check recent alerts, performance metrics, and any known issues for this customer...\n\nWould you like me to focus on any specific time range or service?"
       suggestions := ["Last 24 hours", "Last week", "Specific service", "All data"]
       use_traditional_flow := true
       focus := some ("customer " ++ s.customer.getD "") })
  else if processType == "env_process" && truthy s.environment then
    (st,
     { response := "Analyzing environment \x27" ++ s.environment.getD ""
         ++ "\x27 in our monitoring data. Checking system health, recent deployments, and performance metrics...\n\nWhat specific aspect would you like me to investigate?"
       suggestions := ["Recent deployments", "Error rates", "Performance metrics", "System health"]
       use_traditional_flow := true
       focus := some ("environment " ++ s.environment.getD "") })
  else if processType == "performance_process" && truthy s.performance_details then
    (st,
     { response := "Investigating performance issue: \x27" ++ s.performance_details.getD ""
         ++ "\x27. Analyzing metrics, error patterns, and correlations...\n\nWould you like me to look at any specific time period or component?"
       suggestions := ["Last hour", "During business hours", "Specific service", "All components"]
       use_traditional_flow := true
       focus := some ("performance " ++ s.performance_details.getD "") })
  else
    (st,
     { response := "Let me analyze that further. What specific details would you like me to investigate?"
       suggestions := ["Show more details", "Try different approach", "Start over"]
       use_traditional_flow := true })

/-- `ConversationFlow._handle_lunch_process`. -/
def handleLunchProcess (st : FlowStore) (_cid _msg : String) : FlowStore × Reply :=
  (st,
   { response := "Hope you find a great place for lunch! Anything else I can help you with?"
     suggestions := ["Start new analysis", "Customer issue", "Environment check"]
     use_traditional_flow := false })

/-- The fallback reply of `process_message` for an unrecognised step. -/
def resetReply : Reply :=
  { response := "I\x27m not sure where we are in our conversation. Let\x27s start over! Where are you writing in from today, AMER or EMEA?"
    suggestions := ["AMER", "EMEA"]
    use_traditional_flow := false }

/-- `ConversationFlow.process_message`. -/
def processMessage (excl joke : String) (st : FlowStore) (cid userMessage : String) :
    FlowStore × Reply :=
  let s := getConversationState st cid
  let lower := pyStrip (pyLower userMessage)
  if s.step = "welcome" then handleWelcome st cid lower
  else if s.step = "ask_state" then handleStateQuestion st cid userMessage
  else if s.step = "ask_help_type" then handleHelpType st cid lower
  else if s.step = "ask_customer" then handleCustomer excl joke st cid userMessage
  else if s.step = "ask_environment" then handleEnvironment excl joke st cid userMessage
  else if s.step = "ask_performance" then handlePerformance excl joke st cid userMessage
  else if s.step ∈ ["customer_process", "env_process", "performance_process"] then
    handleDetailedProcess st cid lower s.step
  else if s.step = "lunch_process" then handleLunchProcess st cid lower
  else (st, resetReply)

/-! ## main.py : conversation memory -/

/-- `llm_service.ConversationMessage`; the pydantic datetime is modelled
as a `Nat` tick and the heterogeneous metadata dict as a string-keyed
association list of rendered values. -/
structure ConversationMessage where
  role : String
  content : String
  timestamp : Nat
  metadata : Option (List (String × String)) := none
deriving DecidableEq, Repr

/-- `conversation_memory`, the per-conversation message-history dict, as
a total function (unseen id ↦ `[]`). -/
def MemStore := String → List ConversationMessage

/-- The store with no recorded history. -/
def emptyMemStore : MemStore := fun _ => []

/-- `get_conversation_history`. -/
def getConversationHistory (mem : MemStore) (cid : String) : List ConversationMessage :=
  mem cid

/-- The list-level body of `add_to_conversation`: append, then
`history[-50:]` when the length exceeds 50. -/
def appendCapped (l : List ConversationMessage) (m : ConversationMessage) :
    List ConversationMessage :=
  let l2 := l ++ [m]
  if l2.length > 50 then l2.drop (l2.length - 50) else l2

/-- `add_to_conversation`; `now` models `datetime.now()`. -/
def addToConversation (mem : MemStore) (cid role content : String) (now : Nat)
    (metadata : Option (List (String × String))) : MemStore :=
  fun j =>
    if j = cid then
      appendCapped (mem cid) { role := role, content := content, timestamp := now, metadata := metadata }
    else mem j

/-! ## main.py : monitoring records and the IncidentAnalyzer -/

/-- A deployment record as returned by `get_recent_deployments`. -/
structure Deployment where
  service : String
  version : String
  timestamp : String
  author : String
  status : String
deriving DecidableEq, Repr

/-- A metric-anomaly record as returned by `get_metric_anomalies`; the
numeric fields are modelled by their rendered form, the analyzer and the
endpoint only ever interpolate them into text. -/
structure Anomaly where
  metric : String
  service : String
  current_value : String
  baseline : String
  severity : String
  timestamp : String
deriving DecidableEq, Repr

/-- An error-spike record as returned by `get_error_spikes`. -/
structure ErrorRecord where
  service : String
  error_type : String
  count : Nat
  first_seen : String
  sample_message : String
deriving DecidableEq, Repr

/-- An alert record as returned by `get_alerts`. -/
structure Alert where
  service : String
  alert : String
  status : String
  timestamp : String
  duration : String
deriving DecidableEq, Repr

/-- The dict built by `IncidentAnalyzer.query_recent_changes`. -/
structure MonitoringBundle where
  deployments : List Deployment
  anomalies : List Anomaly
  errors : List ErrorRecord
  alerts : List Alert
  time_range : String × String
deriving DecidableEq, Repr

/-- `results[i] if not isinstance(results[i], Exception) else []`: a
source whose task raised degrades to the empty list. -/
def exceptToList {α : Type} (r : Except String (List α)) : List α :=
  match r with
  | .ok l => l
  | .error _ => []

/-- `IncidentAnalyzer.query_recent_changes`: the four source calls are
parameters (`.error` models a task that raised inside
`asyncio.gather(..., return_exceptions=True)`). -/
def queryRecentChanges (dep : Except String (List Deployment))
    (anom : Except String (List Anomaly)) (err : Except String (List ErrorRecord))
    (al : Except String (List Alert)) (tr : String × String) : MonitoringBundle :=
  { deployments := exceptToList dep
    anomalies := exceptToList anom
    errors := exceptToList err
    alerts := exceptToList al
    time_range := tr }

/-- `timestamp.replace("Z", "+00:00")` (every occurrence of the
single-character pattern replaced). -/
def replaceZ (s : String) : String :=
  String.mk ((s.data.map (fun c => if c = 'Z' then "+00:00".data else [c])).flatten)

/-- Shape check for the fixed-width `YYYY-MM-DDTHH:MM:SS+HH:MM` strings
accepted by the model of `datetime.fromisoformat` below. -/
def isoShape (s : String) : Bool :=
  match s.toList with
  | [y1, y2, y3, y4, '-', mo1, mo2, '-', d1, d2, 'T', h1, h2, ':', mi1, mi2, ':', s1, s2, '+', o1, o2, ':', o3, o4] =>
    [y1, y2, y3, y4, mo1, mo2, d1, d2, h1, h2, mi1, mi2, s1, s2, o1, o2, o3, o4].all Char.isDigit
  | _ => false

/-- Model of `datetime.fromisoformat`: validates the fixed-width shape
and returns the string itself as the time point (chronological order of
equal-offset fixed-width ISO strings is their lexicographic order, which
is how parsed time points are compared below).  A malformed timestamp is
the raised `ValueError`. -/
def fromisoformat (s : String) : Except String String :=
  if isoShape s then .ok s else .error ("Invalid isoformat string: " ++ s)

/-- Strict lexicographic order on character lists. -/
def charsLt : List Char → List Char → Bool
  | [], [] => false
  | [], _ :: _ => true
  | _ :: _, [] => false
  | a :: as, b :: bs => if a < b then true else if b < a then false else charsLt as bs

/-- The strict `datetime` comparison `>` of `analyze_correlation`,
modelled as lexicographic comparison of the fixed-width time strings
(`timeLt a b` means the time point `a` is strictly earlier than `b`). -/
def timeLt (a b : String) : Bool := charsLt a.data b.data

/-- The deployment-correlation finding string of `analyze_correlation`. -/
def deploymentFinding (d : Deployment) (n : Nat) : String :=
  "🚨 **Deployment Correlation**: " ++ d.service ++ " v" ++ d.version
    ++ " deployed at " ++ d.timestamp ++ " followed by " ++ toString n ++ " error types"

/-- The `related_errors` comprehension: error records of the service of the deployment
itself whose parsed `first_seen` is strictly after the parsed deployment
time.  The conjunction short-circuits as in Python: `first_seen` is only
parsed (and can only raise) for records of the matching service. -/
def relatedErrors (svc deployTime : String) :
    List ErrorRecord → Except String (List ErrorRecord)
  | [] => .ok []
  | e :: es =>
    if e.service == svc then
      match fromisoformat (replaceZ e.first_seen) with
      | .error err => .error err
      | .ok t =>
        match relatedErrors svc deployTime es with
        | .error err => .error err
        | .ok rest => .ok (if timeLt deployTime t then e :: rest else rest)
    else relatedErrors svc deployTime es

/-- The description, in the spec, of the records selected for a
deployment — error records belonging to the same service whose
first-seen timestamp is strictly after the deployment timestamp —
phrased as a direct filter; the theorems below relate `relatedErrors`
to it. -/
def matchingErrors (errors : List ErrorRecord) (d : Deployment) : List ErrorRecord :=
  errors.filter (fun e =>
    e.service == d.service && timeLt (replaceZ d.timestamp) (replaceZ e.first_seen))

/-- The deployment loop of `analyze_correlation`: one finding per
deployment that has at least one related error, in deployment order. -/
def deploymentFindings (errors : List ErrorRecord) :
    List Deployment → Except String (List String)
  | [] => .ok []
  | d :: ds =>
    match fromisoformat (replaceZ d.timestamp) with
    | .error err => .error err
    | .ok dt =>
      match relatedErrors d.service dt errors with
      | .error err => .error err
      | .ok rel =>
        match deploymentFindings errors ds with
        | .error err => .error err
        | .ok rest => .ok (if rel.isEmpty then rest else deploymentFinding d rel.length :: rest)

/-- `services_with_issues`: the Python set of service names of the error
and anomaly records, modelled as a first-occurrence-ordered list with no
duplicates (same membership and cardinality as the set). -/
def servicesWithIssues (errors : List ErrorRecord) (anomalies : List Anomaly) :
    List String :=
  (errors.map (fun e => e.service) ++ anomalies.map (fun a => a.service)).foldl
    (fun acc s => if s ∈ acc then acc else acc ++ [s]) []

/-- The multi-service block of `analyze_correlation`: at most one finding,
present exactly when more than one service has issues. -/
def multiServiceFindings (errors : List ErrorRecord) (anomalies : List Anomaly) :
    List String :=
  let svcs := servicesWithIssues errors anomalies
  if svcs.length > 1 then
    ["⚠️ **Multi-Service Impact**: " ++ toString svcs.length ++ " services affected: "
      ++ String.intercalate ", " svcs]
  else []

/-- The list of findings accumulated by `analyze_correlation` before the
final join. -/
def analyzeCorrelationList (data : MonitoringBundle) : Except String (List String) :=
  match deploymentFindings data.errors data.deployments with
  | .error err => .error err
  | .ok findings => .ok (findings ++ multiServiceFindings data.errors data.anomalies)

/-- `IncidentAnalyzer.analyze_correlation`. -/
def analyzeCorrelation (data : MonitoringBundle) : Except String String :=
  match analyzeCorrelationList data with
  | .error err => .error err
  | .ok analysis =>
    .ok (if analysis.isEmpty then "No significant correlations detected."
         else String.intercalate "\n" analysis)

/-! ## main.py : the mocked monitoring sources -/

/-- `IncidentAnalyzer.get_recent_deployments` (mock data in the source). -/
def mockDeployments : List Deployment :=
  [{ service := "api-gateway", version := "v2.1.3", timestamp := "2025-01-08T14:30:00Z",
     author := "devops-bot", status := "success" },
   { service := "user-service", version := "v1.8.1", timestamp := "2025-01-08T13:45:00Z",
     author := "john.doe", status := "success" }]

/-- `IncidentAnalyzer.get_metric_anomalies` (mock data in the source). -/
def mockAnomalies : List Anomaly :=
  [{ metric := "response_time_p95", service := "api-gateway", current_value := "1250",
     baseline := "450", severity := "high", timestamp := "2025-01-08T14:35:00Z" },
   { metric := "error_rate", service := "user-service", current_value := "0.05",
     baseline := "0.001", severity := "medium", timestamp := "2025-01-08T14:32:00Z" }]

/-- `IncidentAnalyzer.get_error_spikes` (mock data in the source). -/
def mockErrors : List ErrorRecord :=
  [{ service := "api-gateway", error_type := "TimeoutError", count := 47,
     first_seen := "2025-01-08T14:31:00Z",
     sample_message := "Connection timeout to user-service after 30s" },
   { service := "user-service", error_type := "DatabaseConnectionError", count := 12,
     first_seen := "2025-01-08T14:30:00Z",
     sample_message := "Failed to connect to primary database" }]

/-- `IncidentAnalyzer.get_alerts` (mock data in the source). -/
def mockAlerts : List Alert :=
  [{ service := "user-service", alert := "High Error Rate", status := "CRITICAL",
     timestamp := "2025-01-08T14:32:00Z", duration := "3m" },
   { service := "database-primary", alert := "Connection Pool Exhausted", status := "WARNING",
     timestamp := "2025-01-08T14:29:00Z", duration := "6m" }]

/-! ## main.py : the chat endpoint -/

/-- `llm_service.LLMResponse`. -/
structure LLMResponse where
  content : String
  provider : String
  model : String
  tokens_used : Nat
  processing_time_ms : Nat
deriving DecidableEq, Repr

/-- `llm_service.IncidentContext` as populated by `chat_endpoint`. -/
structure IncidentContext where
  recent_changes : MonitoringBundle
  active_alerts : List Alert
  error_patterns : List ErrorRecord
  service_health : List Anomaly
  correlation_analysis : String
deriving Repr

/-- The pydantic `ChatResponse` model of `main.py`. -/
structure ChatResponseM where
  response : String
  data : Option MonitoringBundle := none
  suggestions : List String := []
  llm_response : Option LLMResponse := none
  analysis_type : String := "standard"
deriving DecidableEq, Repr

/-- The keyword list of the `use_llm` decision in `chat_endpoint`. -/
def llmKeywords : List String :=
  ["analyze", "explain", "why", "how", "what should", "recommend",
   "suggest", "help", "understand", "investigate", "troubleshoot"]

/-- Accumulator worker for `pySplitWs`. -/
def splitWsAux : List Char → List Char → List String
  | [], acc => if acc.isEmpty then [] else [String.mk acc.reverse]
  | c :: cs, acc =>
    if c.isWhitespace then
      if acc.isEmpty then splitWsAux cs []
      else String.mk acc.reverse :: splitWsAux cs []
    else splitWsAux cs (c :: acc)

/-- Python `str.split()` with no separator: split on whitespace runs,
producing no empty pieces. -/
def pySplitWs (s : String) : List String :=
  splitWsAux s.data []

/-- Digit run to the number `int` parses from it. -/
def digitsToNat (ds : List Char) : Nat :=
  ds.foldl (fun n c => n * 10 + (c.toNat - 48)) 0

/-- the search for the regex `(\d+)\s*hours?` in the query: the leftmost occurrence of a
digit run followed by optional whitespace and the literal `hour`, giving
the digit group as a number.  (The optional trailing `s` never affects
the group, and a shorter digit run at the same start can never succeed
where the maximal run failed, so leftmost-longest scanning is exact.) -/
def findHourMatch : List Char → Option Nat
  | [] => none
  | c :: rest =>
    if c.isDigit then
      let ds := (c :: rest).takeWhile Char.isDigit
      let afterDigits := (c :: rest).dropWhile Char.isDigit
      let afterWs := afterDigits.dropWhile (fun ch => ch.isWhitespace)
      if "hour".toList.isPrefixOf afterWs then some (digitsToNat ds)
      else findHourMatch rest
    else findHourMatch rest

/-- The `"what changed"` branch of the traditional rule-based responses:
hour extraction and the Markdown summary (lines 305-338 of `main.py`). -/
def recentChangesResponse (query : String) (data : MonitoringBundle)
    (correlationAnalysis : String) : String :=
  let hours : Nat :=
    if strContains query "hour" then (findHourMatch query.toList).getD 2 else 2
  let response := "## Recent Changes (Last " ++ toString hours ++ " hours)\n\n"
    ++ correlationAnalysis ++ "\n\n"
  let response :=
    if !data.deployments.isEmpty then
      response ++ "### 🚀 Deployments\n"
        ++ String.join (data.deployments.map (fun dep =>
            "- **" ++ dep.service ++ "** v" ++ dep.version ++ " at " ++ dep.timestamp ++ "\n"))
        ++ "\n"
    else response
  let response :=
    if !data.alerts.isEmpty then
      response ++ "### 🚨 Active Alerts\n"
        ++ String.join (data.alerts.map (fun a =>
            "- **" ++ a.service ++ "**: " ++ a.alert ++ " (" ++ a.status ++ ") - " ++ a.duration ++ "\n"))
        ++ "\n"
    else response
  if !data.anomalies.isEmpty then
    response ++ "### 📊 Metric Anomalies\n"
      ++ String.join (data.anomalies.map (fun an =>
          "- **" ++ an.service ++ "**: " ++ an.metric ++ " = " ++ an.current_value
            ++ " (baseline: " ++ an.baseline ++ ")\n"))
  else response

/-- The `"error"` detail branch of the traditional responses. -/
def errorAnalysisResponse (data : MonitoringBundle) : String :=
  if !data.errors.isEmpty then
    "## Error Analysis\n\n"
      ++ String.join (data.errors.map (fun e =>
          "### " ++ e.service ++ " - " ++ e.error_type ++ "\n**Count**: " ++ toString e.count
            ++ " occurrences\n**First Seen**: " ++ e.first_seen ++ "\n**Sample**: `"
            ++ e.sample_message ++ "`\n\n"))
  else "No recent errors detected in the monitored services."

/-- The fixed help/menu text of the final traditional branch; the banner
depends on whether any LLM provider is configured. -/
def helpResponse (providersAvailable : Bool) : String :=
  let llmStatus :=
    if providersAvailable then "🤖 **AI-Powered Analysis Available**"
    else "📊 **Rule-Based Analysis**"
  "## " ++ llmStatus ++ "\n\nI can help you investigate incidents by analyzing your monitoring data and providing intelligent insights:\n\n**Smart Analysis:**\n- **\"Analyze what changed in the last 2 hours\"** - AI-powered correlation analysis\n- **\"Why are we seeing these errors?\"** - Root cause analysis\n- **\"What should I investigate first?\"** - Prioritized action recommendations\n- **\"Explain this incident impact\"** - Business impact assessment\n\n**Quick Data:**\n- **\"Show me error details\"** - Recent error patterns\n- **\"Check active alerts\"** - Current system alerts\n- **\"Recent deployments\"** - Latest changes\n\nI monitor your Grafana, Prometheus, Elasticsearch, and Nagios systems."

/-- The traditional rule-based response section of `chat_endpoint`
(lines 304-385): response text and suggestion list. -/
def traditionalResponse (query : String) (data : MonitoringBundle)
    (correlationAnalysis : String) (providersAvailable : Bool) : String × List String :=
  if strContains query "what changed" || strContains query "recent changes" then
    (recentChangesResponse query data correlationAnalysis,
     ["Analyze the correlation between deployments and errors",
      "What should I investigate first?",
      "Generate incident summary",
      "Show deployment rollback options"])
  else if strContains query "error" && (strContains query "detail" || strContains query "pattern") then
    (errorAnalysisResponse data,
     ["What\x27s causing these errors?",
      "How can I fix this issue?",
      "Check service dependencies",
      "Show related alerts"])
  else
    (helpResponse providersAvailable,
     ["Analyze what changed in the last 2 hours",
      "What should I investigate first?",
      "Show me current system health",
      "Generate incident summary"])

/-- The external inputs of one `chat_endpoint` request: the random text
resources, the four monitoring-source results, the configured providers,
the LLM call result (`.ok none` models `generate_response` returning a
falsy value) and the clock tick. -/
structure ChatEnv where
  excl : String
  joke : String
  deploymentsResult : Except String (List Deployment)
  anomaliesResult : Except String (List Anomaly)
  errorsResult : Except String (List ErrorRecord)
  alertsResult : Except String (List Alert)
  time_range : String × String
  providers : List String
  llmResult : Except String (Option LLMResponse)
  now : Nat

/-- The environment in which the sources return their mock data, no LLM
provider is configured, and the text resources fall back to their
literal defaults. -/
def mockEnv : ChatEnv :=
  { excl := "Wow"
    joke := "Why did the developer go broke? Because he used up all his cache!"
    deploymentsResult := .ok mockDeployments
    anomaliesResult := .ok mockAnomalies
    errorsResult := .ok mockErrors
    alertsResult := .ok mockAlerts
    time_range := ("2025-01-08T12:35:00Z", "2025-01-08T14:35:00Z")
    providers := []
    llmResult := .error "no provider"
    now := 0 }

/-- The process-wide mutable state: the flow sessions and the
conversation memory. -/
structure Stores where
  flow : FlowStore
  mem : MemStore

/-- Both stores at their initial empty state. -/
def emptyStores : Stores := ⟨emptyFlowStore, emptyMemStore⟩

/-- `message.conversation_id or "default"`: Python `or` treats a missing
id and the empty string alike. -/
def cidOf (conversationId : Option String) : String :=
  match conversationId with
  | none => "default"
  | some c => if c = "" then "default" else c

/-- Everything `chat_endpoint` does after the initial
`add_to_conversation(conversation_id, "user", ...)`: the dialogue-flow
delegation, the monitoring fan-out, correlation, LLM decision and the
rule-based fallback.  This is the fallible part of the request; an
exception reaching the boundary handler is returned as `.error` with
the `HTTPException` detail string, alongside the stores as mutated so
far.  (On the LLM-null and LLM-failure branches the source calls the
name `logger`, which `main.py` never defines, so those branches raise
`NameError` to the boundary instead of falling through.) -/
def chatEndpointBody (env : ChatEnv) (flow : FlowStore) (mem : MemStore)
    (cid message query : String) : Stores × Except String ChatResponseM :=
  let pm := processMessage env.excl env.joke flow cid message
  let flowSt := pm.1
  let flowResult := pm.2
  if !flowResult.use_traditional_flow then
    let mem := addToConversation mem cid "assistant" flowResult.response env.now none
    (⟨flowSt, mem⟩,
     .ok { response := flowResult.response
           data := none
           suggestions := flowResult.suggestions
           llm_response := none
           analysis_type := "conversation_flow" })
  else
    let data := queryRecentChanges env.deploymentsResult env.anomaliesResult
      env.errorsResult env.alertsResult env.time_range
    match analyzeCorrelation data with
    | .error e => (⟨flowSt, mem⟩, .error ("Error processing request: " ++ e))
    | .ok correlationAnalysis =>
      let focusContext := flowResult.focus.getD ""
      let _context : IncidentContext :=
        { recent_changes := data
          active_alerts := data.alerts
          error_patterns := data.errors
          service_health := data.anomalies
          correlation_analysis :=
            if focusContext != "" then correlationAnalysis ++ "\n\nFOCUS: " ++ focusContext
            else correlationAnalysis }
      let useLlm := llmKeywords.any (fun k => strContains query k)
        || (pySplitWs query).length > 10
        || flowResult.use_traditional_flow
      if useLlm && !env.providers.isEmpty then
        match env.llmResult with
        | .ok (some r) =>
          let mem := addToConversation mem cid "assistant" r.content env.now
            (some [("llm_provider", r.provider), ("tokens_used", toString r.tokens_used)])
          (⟨flowSt, mem⟩,
           .ok { response := r.content
                 data := some data
                 suggestions := ["Show me specific error details",
                                 "What are the next steps to resolve this?",
                                 "Check related service dependencies",
                                 "Generate incident summary report"]
                 llm_response := some r
                 analysis_type := "ai_powered" })
        | .ok none =>
          (⟨flowSt, mem⟩, .error "Error processing request: name \x27logger\x27 is not defined")
        | .error _ =>
          (⟨flowSt, mem⟩, .error "Error processing request: name \x27logger\x27 is not defined")
      else
        let rs := traditionalResponse query data correlationAnalysis
          (!env.providers.isEmpty)
        let mem := addToConversation mem cid "assistant" rs.1 env.now none
        (⟨flowSt, mem⟩,
         .ok { response := rs.1
               data := some data
               suggestions := rs.2
               llm_response := none
               analysis_type := "traditional" })

/-- `chat_endpoint`: lower the query, resolve the conversation id,
record the incoming user message, then run the fallible body. -/
def chatEndpoint (env : ChatEnv) (st : Stores) (conversationId : Option String)
    (message : String) : Stores × Except String ChatResponseM :=
  let query := pyLower message
  let cid := cidOf conversationId
  let mem := addToConversation st.mem cid "user" message env.now none
  chatEndpointBody env st.flow mem cid message query

/-! ## Concrete instances used by witnesses and counterexamples -/

/-- The closed state set of the dialogue engine (§4.2 of the spec). -/
def closedStateSet : List String :=
  ["welcome", "ask_state", "ask_help_type", "ask_customer", "ask_environment",
   "ask_performance", "customer_process", "env_process", "performance_process",
   "lunch_process"]

/-- Sixty pairwise-distinct messages. -/
def sixtyMessages : List ConversationMessage :=
  (List.range 60).map (fun i => { role := "user", content := toString i, timestamp := i })

/-- A deployment of service `svc` at 14:30 UTC. -/
def deployAt1430 : Deployment :=
  { service := "svc", version := "1.0", timestamp := "2025-01-08T14:30:00Z",
    author := "a", status := "success" }

/-- An error of service `svc` first seen one minute after `deployAt1430`. -/
def errorAt1431 : ErrorRecord :=
  { service := "svc", error_type := "TimeoutError", count := 3,
    first_seen := "2025-01-08T14:31:00Z", sample_message := "m1" }

/-- A second matching error record with the same `error_type` as
`errorAt1431`. -/
def errorAt1432 : ErrorRecord :=
  { service := "svc", error_type := "TimeoutError", count := 5,
    first_seen := "2025-01-08T14:32:00Z", sample_message := "m2" }

/-- An error record touching only service `svc-a`. -/
def errOnA : ErrorRecord :=
  { service := "svc-a", error_type := "E", count := 1,
    first_seen := "2025-01-08T14:31:00Z", sample_message := "m" }

/-- An anomaly record touching only service `svc-b`. -/
def anomOnB : Anomaly :=
  { metric := "latency", service := "svc-b", current_value := "9", baseline := "1",
    severity := "high", timestamp := "2025-01-08T14:31:00Z" }

/-- A session that has completed the customer dialogue branch. -/
def customerSession : Session :=
  { freshSession with
    step := "customer_process"
    wherami := some "AMER"
    state := some "Texas"
    issue_type := some "customer"
    customer := some "Acme Corp" }

/-- Stores in which every conversation sits at `customerSession` with no
recorded history. -/
def customerStores : Stores := ⟨fun _ => customerSession, emptyMemStore⟩

/-- A deployment record whose timestamp `datetime.fromisoformat` rejects. -/
def badDeployment : Deployment :=
  { deployAt1430 with timestamp := "garbage" }

/-- The mock environment with the deployments source returning
`badDeployment`. -/
def badDeployEnv : ChatEnv :=
  { mockEnv with deploymentsResult := .ok [badDeployment] }

/-- A session waiting at the help-type menu. -/
def helpTypeSession : Session :=
  { freshSession with step := "ask_help_type", wherami := some "EMEA" }

/-! ## Helper lemmas -/

/-- `appendCapped` in closed form: append, then drop the overflow. -/
lemma appendCapped_eq (l : List ConversationMessage) (m : ConversationMessage) :
    appendCapped l m = (l ++ [m]).drop (l.length + 1 - 50) := by
  simp only [appendCapped]
  split
  · congr 1
    simp [List.length_append]
  · next h =>
    have h0 : l.length + 1 - 50 = 0 := by
      simp only [List.length_append, List.length_singleton] at h
      omega
    rw [h0, List.drop_zero]

/-- One capped append never leaves more than 50 messages. -/
lemma appendCapped_length_le (l : List ConversationMessage) (m : ConversationMessage) :
    (appendCapped l m).length ≤ 50 := by
  simp only [appendCapped]
  split
  · rw [List.length_drop]
    omega
  · next h =>
    simp only [List.length_append, List.length_singleton] at h ⊢
    omega

/-- The appended message survives the cap. -/
lemma mem_appendCapped (l : List ConversationMessage) (m : ConversationMessage) :
    m ∈ appendCapped l m := by
  rw [appendCapped_eq, List.drop_append_of_le_length (by omega)]
  exact List.mem_append.2 (Or.inr (List.mem_singleton.2 rfl))

/-- Folding capped appends from an empty history keeps exactly the most
recent 50 messages, in order. -/
lemma foldl_appendCapped (msgs : List ConversationMessage) :
    msgs.foldl appendCapped [] = msgs.drop (msgs.length - 50) := by
  induction msgs using List.reverseRecOn with
  | nil => rfl
  | append_singleton l m ih =>
    rw [List.foldl_append, List.foldl_cons, List.foldl_nil, ih, appendCapped_eq,
      List.length_drop, ← List.drop_append_of_le_length (Nat.sub_le l.length 50),
      List.drop_drop]
    congr 1
    simp only [List.length_append, List.length_singleton]
    omega

/-- When every error record of the inspected service has a well-formed
timestamp, the comprehension succeeds and selects exactly the
same-service strictly-later records. -/
lemma relatedErrors_eq (svc dt : String) (errors : List ErrorRecord)
    (h : ∀ e ∈ errors, e.service = svc → isoShape (replaceZ e.first_seen) = true) :
    relatedErrors svc dt errors
      = .ok (errors.filter (fun e =>
          e.service == svc && timeLt dt (replaceZ e.first_seen))) := by
  induction errors with
  | nil => rfl
  | cons e es ih =>
    have ih' := ih (fun e' he' => h e' (List.mem_cons_of_mem _ he'))
    simp only [relatedErrors, List.filter_cons]
    by_cases hsvc : (e.service == svc) = true
    · have hiso : isoShape (replaceZ e.first_seen) = true :=
        h e (List.mem_cons_self _ _) (by simpa using hsvc)
      have hfi : fromisoformat (replaceZ e.first_seen) = .ok (replaceZ e.first_seen) := by
        simp [fromisoformat, hiso]
      rw [if_pos hsvc]
      simp only [hfi, ih']
      rw [hsvc, Bool.true_and]
    · rw [if_neg hsvc, ih']
      have hf : (e.service == svc && timeLt dt (replaceZ e.first_seen)) = false := by
        rw [Bool.not_eq_true] at hsvc
        rw [hsvc, Bool.false_and]
      rw [hf, if_neg Bool.false_ne_true]

/-- When every deployment timestamp and every error timestamp parses,
the deployment loop emits exactly one finding per deployment with a
nonempty set of matching error records, in deployment order, counting
the matching records. -/
lemma deploymentFindings_eq (errors : List ErrorRecord) (deployments : List Deployment)
    (hd : ∀ d ∈ deployments, isoShape (replaceZ d.timestamp) = true)
    (he : ∀ e ∈ errors, isoShape (replaceZ e.first_seen) = true) :
    deploymentFindings errors deployments
      = .ok ((deployments.filter (fun d => !(matchingErrors errors d).isEmpty)).map
          (fun d => deploymentFinding d (matchingErrors errors d).length)) := by
  induction deployments with
  | nil => rfl
  | cons d ds ih =>
    have hiso : isoShape (replaceZ d.timestamp) = true := hd d (List.mem_cons_self _ _)
    have ih' := ih (fun d' hd' => hd d' (List.mem_cons_of_mem _ hd'))
    have hfi : fromisoformat (replaceZ d.timestamp) = .ok (replaceZ d.timestamp) := by
      simp [fromisoformat, hiso]
    have hre := relatedErrors_eq d.service (replaceZ d.timestamp) errors
      (fun e he' _ => he e he')
    simp only [deploymentFindings, hfi, hre, ih', List.filter_cons]
    rw [show (errors.filter (fun e =>
        e.service == d.service && timeLt (replaceZ d.timestamp) (replaceZ e.first_seen)))
      = matchingErrors errors d from rfl]
    by_cases hne : (matchingErrors errors d).isEmpty = true
    · rw [if_pos hne, if_neg (by rw [hne]; exact Bool.false_ne_true)]
    · rw [if_neg hne]
      rw [Bool.not_eq_true] at hne
      rw [if_pos (by rw [hne]; rfl)]
      rw [List.map_cons]

/-- Membership in the fold that models the Python set of service names:
exactly the services already collected or occurring in the list. -/
lemma mem_dedupFold (l : List String) (acc : List String) (s : String) :
    (s ∈ l.foldl (fun acc x => if x ∈ acc then acc else acc ++ [x]) acc)
      ↔ s ∈ acc ∨ s ∈ l := by
  induction l generalizing acc with
  | nil => simp
  | cons x xs ih =>
    rw [List.foldl_cons, ih]
    by_cases hx : x ∈ acc
    · simp only [if_pos hx, List.mem_cons]
      constructor
      · rintro (h | h)
        · exact Or.inl h
        · exact Or.inr (Or.inr h)
      · rintro (h | rfl | h)
        · exact Or.inl h
        · exact Or.inl hx
        · exact Or.inr h
    · simp only [if_neg hx, List.mem_append, List.mem_singleton, List.mem_cons]
      tauto

/-- A run of `add_to_conversation` calls for one conversation id, seen
at that id, is a run of capped appends on its history. -/
lemma foldl_addToConversation (cid : String) (msgs : List ConversationMessage) :
    ∀ mem : MemStore,
      (msgs.foldl
          (fun mem m => addToConversation mem cid m.role m.content m.timestamp m.metadata)
          mem) cid
        = msgs.foldl appendCapped (mem cid) := by
  induction msgs with
  | nil => intro mem; rfl
  | cons m ms ih =>
    intro mem
    rw [List.foldl_cons, List.foldl_cons, ih]
    congr 1
    simp only [addToConversation, if_pos]

/-- Whenever the fallible part of the endpoint ends in the boundary
error, the conversation memory is exactly what it was when that part
started: no error path appends or removes anything. -/
lemma chatEndpointBody_error_mem (env : ChatEnv) (flow : FlowStore) (mem : MemStore)
    (cid message query e : String)
    (h : (chatEndpointBody env flow mem cid message query).2 = .error e) :
    (chatEndpointBody env flow mem cid message query).1.mem = mem := by
  unfold chatEndpointBody at h ⊢
  dsimp only at h ⊢
  by_cases h1 : (!(processMessage env.excl env.joke flow cid message).2.use_traditional_flow) = true
  · rw [if_pos h1] at h ⊢
    exact absurd h (by simp)
  · rw [if_neg h1] at h ⊢
    rcases hc : analyzeCorrelation (queryRecentChanges env.deploymentsResult
        env.anomaliesResult env.errorsResult env.alertsResult env.time_range) with e' | corr
    · simp only [hc] at h ⊢
    · simp only [hc] at h ⊢
      by_cases h2 : (((llmKeywords.any fun k => strContains query k)
            || decide ((pySplitWs query).length > 10)
            || (processMessage env.excl env.joke flow cid message).2.use_traditional_flow)
          && !env.providers.isEmpty) = true
      · rw [if_pos h2] at h ⊢
        rcases hl : env.llmResult with e'' | o
        · simp only [hl] at h ⊢
        · rcases o with _ | r
          · simp only [hl] at h ⊢
          · simp only [hl] at h
            exact absurd h (by simp)
      · rw [if_neg h2] at h ⊢
        exact absurd h (by simp)

/-! ## C1 -/

/-- C1 counterexample: from a fresh session the sequence
`"AMER"`, `"Texas"`, `"1"`, `"Acme Corp"` does leave
`step = "customer_process"` and `customer = "Acme Corp"`, but the reply
returned for the fourth message is the initial-response reply with
`use_traditional_flow = false` and no `focus` — not
`use_traditional_flow = true` with a focus, as the claim states. -/
theorem c1_fourth_reply_not_traditional :
    (let st1 := (processMessage "Wow" "J" emptyFlowStore "c" "AMER").1
     let st2 := (processMessage "Wow" "J" st1 "c" "Texas").1
     let st3 := (processMessage "Wow" "J" st2 "c" "1").1
     let r4 := processMessage "Wow" "J" st3 "c" "Acme Corp"
     (r4.1 "c").step = "customer_process" ∧ (r4.1 "c").customer = some "Acme Corp"
       ∧ ¬ r4.2.use_traditional_flow = true ∧ r4.2.focus = none) := by
  decide

/-- C1 (amended): for every loaded exclamation and joke text, the four
messages `"AMER"`, `"Texas"`, `"1"`, `"Acme Corp"` leave the session with
`step = "customer_process"` and `customer = "Acme Corp"`; the fourth
reply (the initial-response reply) has `use_traditional_flow = false`
and no `focus`; it is the reply to a fifth message, sent while the
session is in `customer_process`, that has `use_traditional_flow = true`
and the nonempty focus `"customer Acme Corp"`. -/
theorem c1_scenario_amended (excl joke : String) :
    (let st1 := (processMessage excl joke emptyFlowStore "c" "AMER").1
     let st2 := (processMessage excl joke st1 "c" "Texas").1
     let st3 := (processMessage excl joke st2 "c" "1").1
     let r4 := processMessage excl joke st3 "c" "Acme Corp"
     let r5 := processMessage excl joke r4.1 "c" "Which services are affected?"
     (r4.1 "c").step = "customer_process" ∧ (r4.1 "c").customer = some "Acme Corp"
       ∧ r4.2.use_traditional_flow = false ∧ r4.2.focus = none
       ∧ r5.2.use_traditional_flow = true ∧ r5.2.focus = some "customer Acme Corp"
       ∧ strContains "customer Acme Corp" "customer Acme Corp" = true) :=
  ⟨rfl, rfl, rfl, rfl, rfl, rfl, rfl⟩

/-! ## C2 -/

/-- C2: for every session whose `step` lies outside the closed state
set and every user message, `process_message` returns the reset reply
that re-asks the AMER/EMEA region question, with
`use_traditional_flow = false`, and leaves the store untouched (the
embedding is a total function, so no exception is possible). -/
theorem c2_unrecognized_step_resets (excl joke : String) (st : FlowStore)
    (cid msg : String) (h : (st cid).step ∉ closedStateSet) :
    processMessage excl joke st cid msg = (st, resetReply)
      ∧ resetReply.use_traditional_flow = false
      ∧ resetReply.suggestions = ["AMER", "EMEA"] := by
  refine ⟨?_, rfl, rfl⟩
  simp only [closedStateSet, List.mem_cons, List.not_mem_nil, or_false, not_or] at h
  obtain ⟨h1, h2, h3, h4, h5, h6, h7, h8, h9, h10⟩ := h
  simp only [processMessage, getConversationState]
  simp [h1, h2, h3, h4, h5, h6, h7, h8, h9, h10]

/-- C2 witness: a session parked at the out-of-set step `"bogus"`. -/
theorem c2_unrecognized_step_resets_witness :
    ((fun _ => { freshSession with step := "bogus" } : FlowStore) "c").step ∉ closedStateSet
      ∧ processMessage "Wow" "J" (fun _ => { freshSession with step := "bogus" }) "c" "hello"
          = ((fun _ => { freshSession with step := "bogus" }), resetReply) :=
  ⟨by decide,
   (c2_unrecognized_step_resets "Wow" "J" (fun _ => { freshSession with step := "bogus" })
     "c" "hello" (by decide)).1⟩

/-! ## C3 -/

/-- C3: after any single `add_to_conversation` the history of the
touched conversation id holds at most 50 messages, and appending 60
messages to one conversation id leaves exactly the most recent 50
(messages 11 through 60) in their original oldest-first order. -/
theorem c3_history_truncation :
    (∀ (mem : MemStore) (cid role content : String) (now : Nat)
        (md : Option (List (String × String))),
      ((addToConversation mem cid role content now md) cid).length ≤ 50)
    ∧ ∀ (cid : String) (msgs : List ConversationMessage), msgs.length = 60 →
        (msgs.foldl
            (fun mem m => addToConversation mem cid m.role m.content m.timestamp m.metadata)
            emptyMemStore) cid
          = msgs.drop 10 := by
  constructor
  · intro mem cid role content now md
    simp only [addToConversation, if_pos]
    exact appendCapped_length_le _ _
  · intro cid msgs h
    rw [foldl_addToConversation]
    show List.foldl appendCapped [] msgs = _
    rw [foldl_appendCapped, h]

/-- C3 witness: sixty concrete distinct messages. -/
theorem c3_history_truncation_witness :
    sixtyMessages.length = 60
      ∧ (sixtyMessages.foldl
            (fun mem m => addToConversation mem "c" m.role m.content m.timestamp m.metadata)
            emptyMemStore) "c"
          = sixtyMessages.drop 10 :=
  ⟨by decide, c3_history_truncation.2 "c" sixtyMessages (by decide)⟩

/-! ## C9 -/

/-- C9: `update_conversation_state` merges partial fields: sessions of
all other conversation ids are untouched, and at the updated id every
field not named in the update keeps its previous value. -/
theorem c9_update_merges (st : FlowStore) (cid : String) (u : SessionUpdate) :
    (∀ j, j ≠ cid → updateConversationState st cid u j = st j)
      ∧ (u.step = none →
          (updateConversationState st cid u cid).step = (st cid).step)
      ∧ (u.wherami = none →
          (updateConversationState st cid u cid).wherami = (st cid).wherami)
      ∧ (u.state = none →
          (updateConversationState st cid u cid).state = (st cid).state)
      ∧ (u.issue_type = none →
          (updateConversationState st cid u cid).issue_type = (st cid).issue_type)
      ∧ (u.customer = none →
          (updateConversationState st cid u cid).customer = (st cid).customer)
      ∧ (u.environment = none →
          (updateConversationState st cid u cid).environment = (st cid).environment)
      ∧ (u.performance_details = none →
          (updateConversationState st cid u cid).performance_details
            = (st cid).performance_details)
      ∧ (u.completed_steps = none →
          (updateConversationState st cid u cid).completed_steps
            = (st cid).completed_steps) := by
  refine ⟨fun j hj => ?_, fun h => ?_, fun h => ?_, fun h => ?_, fun h => ?_,
    fun h => ?_, fun h => ?_, fun h => ?_, fun h => ?_⟩
  · simp [updateConversationState, hj]
  all_goals simp [updateConversationState, applyUpdate, setField, h]

/-- C9 witness: an update naming only `customer`, applied at id `"b"`,
leaves id `"a"` and the unnamed `step` field of `"b"` unchanged. -/
theorem c9_update_merges_witness :
    ("a" : String) ≠ "b"
      ∧ updateConversationState (fun _ => freshSession) "b" { customer := some "X" } "a"
          = (fun _ => freshSession : FlowStore) "a"
      ∧ ({ customer := some "X" } : SessionUpdate).step = none
      ∧ (updateConversationState (fun _ => freshSession) "b" { customer := some "X" } "b").step
          = ((fun _ => freshSession : FlowStore) "b").step :=
  ⟨by decide,
   (c9_update_merges (fun _ => freshSession) "b" { customer := some "X" }).1 "a" (by decide),
   rfl,
   (c9_update_merges (fun _ => freshSession) "b" { customer := some "X" }).2.1 rfl⟩

/-! ## C4 -/

/-- C4 counterexample: a deployment followed by two matching error
records that share one `error_type`.  The emitted finding counts the two
matching records (the code renders `len(related_errors)`), while the
number of distinct matching error types is one — so the finding does not
name the count of distinct matching error types, as the claim states. -/
theorem c4_counterexample_record_count :
    deploymentFindings [errorAt1431, errorAt1432] [deployAt1430]
        = .ok [deploymentFinding deployAt1430 2]
      ∧ ((matchingErrors [errorAt1431, errorAt1432] deployAt1430).map
            (fun e => e.error_type)).dedup.length = 1
      ∧ deploymentFinding deployAt1430 2 ≠ deploymentFinding deployAt1430 1 :=
  ⟨rfl, by decide, by decide⟩

/-- C4 (amended): for every bundle whose deployment and error
timestamps are well-formed, the analyzer emits one deployment
correlation finding per deployment that has at least one error record
of the same service first seen strictly after the deployment, in
deployment order; the finding names the service, version, deployment
time and the number of matching error records (not the number of
distinct error types); a deployment with no matching record yields no
finding.  In particular a deployment at T for service `svc` with one
error for `svc` first seen at T+1min yields exactly one finding
referencing `svc`. -/
theorem c4_deployment_correlation :
    (∀ (errors : List ErrorRecord) (deployments : List Deployment),
        (∀ d ∈ deployments, isoShape (replaceZ d.timestamp) = true) →
        (∀ e ∈ errors, isoShape (replaceZ e.first_seen) = true) →
        deploymentFindings errors deployments
          = .ok ((deployments.filter (fun d => !(matchingErrors errors d).isEmpty)).map
              (fun d => deploymentFinding d (matchingErrors errors d).length)))
      ∧ deploymentFindings [errorAt1431] [deployAt1430]
          = .ok [deploymentFinding deployAt1430 1]
      ∧ strContains (deploymentFinding deployAt1430 1) "svc" = true
      ∧ deploymentFindings [errorAt1431] [{ deployAt1430 with service := "other" }] = .ok [] :=
  ⟨deploymentFindings_eq, rfl, by decide, rfl⟩

/-- C4 witness: the amended characterization applied to the concrete
one-deployment, one-error bundle. -/
theorem c4_deployment_correlation_witness :
    (∀ d ∈ [deployAt1430], isoShape (replaceZ d.timestamp) = true)
      ∧ (∀ e ∈ [errorAt1431], isoShape (replaceZ e.first_seen) = true)
      ∧ deploymentFindings [errorAt1431] [deployAt1430]
          = .ok (([deployAt1430].filter
                (fun d => !(matchingErrors [errorAt1431] d).isEmpty)).map
              (fun d => deploymentFinding d (matchingErrors [errorAt1431] d).length)) :=
  ⟨by decide, by decide,
   c4_deployment_correlation.1 [errorAt1431] [deployAt1430] (by decide) (by decide)⟩

/-! ## C5 -/

/-- C5: the collected service set is exactly the union of the service
names occurring in the error and anomaly collections; when it has more
than one member the analyzer emits exactly one multi-service-impact
finding (appended after the deployment findings), and none otherwise;
concretely, errors touching only `svc-a` and anomalies touching only
`svc-b` yield exactly one finding that mentions both services. -/
theorem c5_multi_service_impact :
    (∀ (errors : List ErrorRecord) (anomalies : List Anomaly) (s : String),
        s ∈ servicesWithIssues errors anomalies
          ↔ s ∈ errors.map (fun e => e.service) ∨ s ∈ anomalies.map (fun a => a.service))
      ∧ (∀ (errors : List ErrorRecord) (anomalies : List Anomaly),
          1 < (servicesWithIssues errors anomalies).length →
          (multiServiceFindings errors anomalies).length = 1)
      ∧ (∀ (errors : List ErrorRecord) (anomalies : List Anomaly),
          ¬ 1 < (servicesWithIssues errors anomalies).length →
          multiServiceFindings errors anomalies = [])
      ∧ (∀ (data : MonitoringBundle) (findings : List String),
          deploymentFindings data.errors data.deployments = .ok findings →
          analyzeCorrelationList data
            = .ok (findings ++ multiServiceFindings data.errors data.anomalies))
      ∧ (multiServiceFindings [errOnA] [anomOnB]).length = 1
      ∧ (∀ f ∈ multiServiceFindings [errOnA] [anomOnB],
          strContains f "svc-a" = true ∧ strContains f "svc-b" = true) := by
  refine ⟨fun errors anomalies s => ?_, fun errors anomalies h => ?_,
    fun errors anomalies h => ?_, fun data findings h => ?_, by decide, by decide⟩
  · rw [servicesWithIssues, mem_dedupFold]
    simp [List.mem_append]
  · rw [multiServiceFindings]
    simp only [if_pos h]
    rfl
  · rw [multiServiceFindings]
    simp only [if_neg h]
  · rw [analyzeCorrelationList, h]

/-- C5 witness: the one-error, one-anomaly, two-services instance. -/
theorem c5_multi_service_impact_witness :
    1 < (servicesWithIssues [errOnA] [anomOnB]).length
      ∧ (multiServiceFindings [errOnA] [anomOnB]).length = 1 :=
  ⟨by decide, c5_multi_service_impact.2.1 [errOnA] [anomOnB] (by decide)⟩

/-! ## C6 -/

/-- C6: when exactly one of the four gathered monitoring sources raises
and the other three succeed, the bundle carries an empty sequence for
the failed source and the fetched data for the rest (first four
conjuncts, one per source); and a chat request that consumes such a
bundle still completes with a successful response (last four conjuncts,
one per source, with the mock data of the source for the surviving
three). -/
theorem c6_fanout_resilience :
    (∀ (err : String) (a : List Anomaly) (e : List ErrorRecord) (al : List Alert)
        (tr : String × String),
        queryRecentChanges (.error err) (.ok a) (.ok e) (.ok al) tr
          = { deployments := [], anomalies := a, errors := e, alerts := al, time_range := tr })
      ∧ (∀ (d : List Deployment) (err : String) (e : List ErrorRecord) (al : List Alert)
          (tr : String × String),
          queryRecentChanges (.ok d) (.error err) (.ok e) (.ok al) tr
            = { deployments := d, anomalies := [], errors := e, alerts := al, time_range := tr })
      ∧ (∀ (d : List Deployment) (a : List Anomaly) (err : String) (al : List Alert)
          (tr : String × String),
          queryRecentChanges (.ok d) (.ok a) (.error err) (.ok al) tr
            = { deployments := d, anomalies := a, errors := [], alerts := al, time_range := tr })
      ∧ (∀ (d : List Deployment) (a : List Anomaly) (e : List ErrorRecord) (err : String)
          (tr : String × String),
          queryRecentChanges (.ok d) (.ok a) (.ok e) (.error err) tr
            = { deployments := d, anomalies := a, errors := e, alerts := [], time_range := tr })
      ∧ ((chatEndpoint { mockEnv with deploymentsResult := .error "boom" }
            customerStores none "status").2).isOk = true
      ∧ ((chatEndpoint { mockEnv with anomaliesResult := .error "boom" }
            customerStores none "status").2).isOk = true
      ∧ ((chatEndpoint { mockEnv with errorsResult := .error "boom" }
            customerStores none "status").2).isOk = true
      ∧ ((chatEndpoint { mockEnv with alertsResult := .error "boom" }
            customerStores none "status").2).isOk = true :=
  ⟨fun _ _ _ _ _ => rfl, fun _ _ _ _ _ => rfl, fun _ _ _ _ _ => rfl, fun _ _ _ _ _ => rfl,
   by decide, by decide, by decide, by decide⟩

/-! ## C7 -/

/-- C7 counterexample: from a fresh (default) session, the message
`"what changed in the last 3 hours"` is answered by the dialogue flow,
not the traditional rule-based path: the welcome handler matches
neither region keyword and replies with the region re-ask, whose text
does not contain `"Last 3 hours"`. -/
theorem c7_fresh_session_not_traditional :
    (chatEndpoint mockEnv emptyStores none "what changed in the last 3 hours").2
        = .ok { response := "I didn\x27t catch that! Please let me know - are you writing in from AMER or EMEA?"
                data := none
                suggestions := ["AMER", "EMEA"]
                llm_response := none
                analysis_type := "conversation_flow" }
      ∧ strContains
          "I didn\x27t catch that! Please let me know - are you writing in from AMER or EMEA?"
          "Last 3 hours" = false :=
  ⟨rfl, by decide⟩

/-- C7 (amended): with no LLM provider configured and the session in a
state where the dialogue engine defers to the router
(`customer_process` with a recorded customer), the message
`"what changed in the last 3 hours"` is answered by the traditional
rule-based path — for any prior conversation memory — with the hour
count 3 extracted from the `N hours` pattern and a response containing
the literal substring `"Last 3 hours"`. -/
theorem c7_traditional_path_extracts_hours (mem : MemStore) :
    ∃ r, (chatEndpoint mockEnv ⟨fun _ => customerSession, mem⟩ none
          "what changed in the last 3 hours").2 = .ok r
      ∧ r.analysis_type = "traditional"
      ∧ strContains r.response "Last 3 hours" = true
      ∧ findHourMatch (pyLower "what changed in the last 3 hours").toList = some 3 :=
  ⟨_, rfl, rfl, by decide, by decide⟩

/-! ## C8 -/

/-- C8: in state `ask_help_type`, any input whose lowered, stripped text
contains none of the trigger substrings repeats the menu: the engine
returns the fixed repeat reply (whose text carries the four menu options
verbatim and whose quick replies equal the original menu), does not
defer to the traditional path, and leaves the whole store — hence every
session field — unchanged. -/
theorem c8_help_type_repeats_menu (excl joke : String) (st : FlowStore) (cid msg : String)
    (hstep : (st cid).step = "ask_help_type")
    (h : (["1", "2", "3", "4", "customer", "environment", "performance", "lunch"].all
        (fun t => !(strContains (pyStrip (pyLower msg)) t))) = true) :
    processMessage excl joke st cid msg = (st, helpTypeRepeatReply)
      ∧ helpTypeRepeatReply.use_traditional_flow = false
      ∧ strContains helpTypeRepeatReply.response
          "1. A specific customer\n2. A specific environment\n3. A generic performance issue\n4. Lunch"
          = true
      ∧ helpTypeRepeatReply.suggestions = getHelpTypeQuestion.suggestions := by
  refine ⟨?_, rfl, by decide, rfl⟩
  simp only [List.all_cons, List.all_nil, Bool.and_eq_true, Bool.and_true,
    Bool.not_eq_true'] at h
  obtain ⟨h1, h2, h3, h4, h5, h6, h7, h8⟩ := h
  simp [processMessage, getConversationState, hstep, handleHelpType,
    h1, h2, h3, h4, h5, h6, h7, h8]

/-- C8 witness: the input `"zzz?"` at the help-type menu. -/
theorem c8_help_type_repeats_menu_witness :
    ((fun _ => helpTypeSession : FlowStore) "c").step = "ask_help_type"
      ∧ (["1", "2", "3", "4", "customer", "environment", "performance", "lunch"].all
          (fun t => !(strContains (pyStrip (pyLower "zzz?")) t))) = true
      ∧ processMessage "Wow" "J" (fun _ => helpTypeSession) "c" "zzz?"
          = ((fun _ => helpTypeSession), helpTypeRepeatReply) :=
  ⟨rfl, by decide,
   (c8_help_type_repeats_menu "Wow" "J" (fun _ => helpTypeSession) "c" "zzz?"
     rfl (by decide)).1⟩

/-! ## C10 -/

/-- C10: the endpoint appends the incoming user message to the
conversation history before any fallible processing, so whenever the
request ends in the boundary error response, the history of the
resolved conversation id is exactly the old history with that user
message appended (capped), and in particular still contains the user
message. -/
theorem c10_user_message_survives_error (env : ChatEnv) (st : Stores)
    (cidOpt : Option String) (message e : String)
    (h : (chatEndpoint env st cidOpt message).2 = .error e) :
    ((chatEndpoint env st cidOpt message).1).mem (cidOf cidOpt)
        = appendCapped (st.mem (cidOf cidOpt))
            { role := "user", content := message, timestamp := env.now, metadata := none }
      ∧ ({ role := "user", content := message, timestamp := env.now, metadata := none }
            : ConversationMessage)
          ∈ ((chatEndpoint env st cidOpt message).1).mem (cidOf cidOpt) := by
  have hmem : ((chatEndpoint env st cidOpt message).1).mem
      = addToConversation st.mem (cidOf cidOpt) "user" message env.now none := by
    have hb := chatEndpointBody_error_mem env st.flow
      (addToConversation st.mem (cidOf cidOpt) "user" message env.now none)
      (cidOf cidOpt) message (pyLower message) e h
    exact hb
  constructor
  · rw [hmem]
    simp only [addToConversation, if_pos]
  · rw [hmem]
    simp only [addToConversation, if_pos]
    exact mem_appendCapped _ _

/-- C10 witness: a deployment with a malformed timestamp makes the
correlation step raise; the request fails with the boundary error and
the history still holds the user message. -/
theorem c10_user_message_survives_error_witness :
    (chatEndpoint badDeployEnv customerStores none "hello").2
        = .error "Error processing request: Invalid isoformat string: garbage"
      ∧ ({ role := "user", content := "hello", timestamp := badDeployEnv.now, metadata := none }
            : ConversationMessage)
          ∈ ((chatEndpoint badDeployEnv customerStores none "hello").1).mem (cidOf none) :=
  ⟨rfl,
   (c10_user_message_survives_error badDeployEnv customerStores none "hello"
     "Error processing request: Invalid isoformat string: garbage" rfl).2⟩

end Chatter
